import Mathlib

/-!
Verification of `zerotwobot/modules/helper_funcs/chat_status.py`.

The module is an authorization layer for a Telegram group bot.  We embed the
permission predicates and the administrator cache as executable Lean
definitions, translated branch by branch from the Python source, and prove
the claimed properties about them.
-/

namespace ZeroTwoBot

/-- Membership status of a chat member, `telegram.constants.ChatMemberStatus`. -/
inductive MemberStatus
| owner
| administrator
| member
| restricted
| left
| banned
deriving DecidableEq

/-- The capability flags carried by a `ChatMemberAdministrator` record that
this module reads via `getattr`. -/
structure AdminCaps where
  can_delete_messages : Bool
  can_pin_messages : Bool
  can_promote_members : Bool
  can_restrict_members : Bool
  can_manage_topics : Bool
deriving DecidableEq

/-- A chat-member record, as returned by `chat.get_member`.  The concrete
Python class of the record determines the `isinstance` checks in the source:
`ChatMemberOwner` records have status owner, `ChatMemberAdministrator`
records have status administrator and carry a capability bundle. -/
inductive ChatMemberRec
| owner
| administrator (caps : AdminCaps)
| member
| restricted
| left
| banned
deriving DecidableEq

/-- The `status` attribute of a member record. -/
def ChatMemberRec.status : ChatMemberRec → MemberStatus
| ChatMemberRec.owner => MemberStatus.owner
| ChatMemberRec.administrator _ => MemberStatus.administrator
| ChatMemberRec.member => MemberStatus.member
| ChatMemberRec.restricted => MemberStatus.restricted
| ChatMemberRec.left => MemberStatus.left
| ChatMemberRec.banned => MemberStatus.banned

/-- The capability names this module passes as the `permission` string of
`check_admin` and reads with `getattr` from an administrator record. -/
inductive Cap
| can_delete_messages
| can_pin_messages
| can_promote_members
| can_restrict_members
| can_manage_topics
deriving DecidableEq

/-- `getattr(caps, permission)` on an administrator record. -/
def AdminCaps.get (c : AdminCaps) : Cap → Bool
| Cap.can_delete_messages => c.can_delete_messages
| Cap.can_pin_messages => c.can_pin_messages
| Cap.can_promote_members => c.can_promote_members
| Cap.can_restrict_members => c.can_restrict_members
| Cap.can_manage_topics => c.can_manage_topics

/-- Chat type, `telegram.constants.ChatType`.  The source compares against
`ChatType.PRIVATE` (and the string literal `"private"`). -/
inductive ChatTy
| privateChat
| group
| supergroup
| channel
deriving DecidableEq

/-- The statically configured role registry imported from the `zerotwobot`
package: `DEV_USERS` (developers), `DRAGONS` (sudo), `DEMONS` (support),
`TIGERS` and `WOLVES` (whitelist tiers).  Each is a collection of user ids,
fixed for the lifetime of the process. -/
structure Registry where
  DEV_USERS : List Int
  DRAGONS : List Int
  DEMONS : List Int
  TIGERS : List Int
  WOLVES : List Int
deriving DecidableEq

/-! ### The admin snapshot cache

`ADMIN_CACHE = TTLCache(maxsize=512, ttl=60*10)`.  A `cachetools.TTLCache`
keeps a recency order over its keys: `__getitem__` moves the accessed key to
the most-recent end before testing expiry, `__setitem__` first drops every
expired entry, then, when a new key would exceed `maxsize`, pops least
recently used entries, and finally stores the key at the most-recent end
with expiry `now + ttl`.  A stored entry whose expiry time has been reached
is reported as missing by `__getitem__`.

We model the cache as a list of entries ordered from most recently used
(head) to least recently used (tail). -/

/-- `maxsize` of `ADMIN_CACHE`. -/
def ADMIN_CACHE_MAXSIZE : Nat := 512

/-- `ttl` of `ADMIN_CACHE`: `60 * 10` seconds. -/
def ADMIN_CACHE_TTL : Nat := 60 * 10

/-- One cache entry: chat id, the stored admin id list, and the absolute
time at which the entry expires. -/
structure Entry where
  key : Int
  val : List Int
  expires : Nat
deriving DecidableEq

/-- `TTLCache.expire`: drop every entry whose expiry time has been reached. -/
def expireEntries (c : List Entry) (t : Nat) : List Entry :=
  c.filter (fun e => decide (t < e.expires))

/-- `ADMIN_CACHE[k]` at time `t`: find the entry, move it to the
most-recent end (this happens even when the entry turns out to be expired),
and return its value only when not yet expired; a `KeyError` is modelled as
`none`.  Returns the value (if any) and the updated cache. -/
def cacheGet (c : List Entry) (t : Nat) (k : Int) : Option (List Int) × List Entry :=
  match c.find? (fun e => e.key == k) with
  | some e =>
      (if t < e.expires then some e.val else none,
       e :: c.filter (fun x => !(x.key == k)))
  | none => (none, c)

/-- `ADMIN_CACHE[k] = v` at time `t`: drop expired entries; if the key is
already present replace it, otherwise evict least recently used entries
(the tail of our list) until there is room; store the new entry at the
most-recent end with expiry `t + ttl`. -/
def cacheSet (c : List Entry) (t : Nat) (k : Int) (v : List Int) : List Entry :=
  Entry.mk k v (t + ADMIN_CACHE_TTL) ::
    (if (expireEntries c t).any (fun e => e.key == k) then
      (expireEntries c t).filter (fun e => !(e.key == k))
    else if ADMIN_CACHE_MAXSIZE ≤ (expireEntries c t).length then
      (expireEntries c t).take (ADMIN_CACHE_MAXSIZE - 1)
    else expireEntries c t)

/-- Outcome of the upstream `application.bot.getChatAdministrators` call:
either the list of admin user ids, or a raised error. -/
inductive FetchResult
| ok (admins : List Int)
| err
deriving DecidableEq

/-- `is_user_admin(chat, user_id, member)`.  Tier bypass first (private
chat, `DRAGONS`, `DEV_USERS`, the Telegram service account 777000 and the
anonymous-admin account 1087968824 are always admins); with no supplied
member record, consult the cache and on a miss fetch the admin list, store
it under the chat id, and test membership in the fetched list; a fetch
failure propagates as an error.  With a supplied member record, test its
status directly.  Returns the result together with the cache state after
the call. -/
def is_user_admin (R : Registry) (ct : ChatTy) (chatId userId : Int)
    (member : Option ChatMemberRec) (cache : List Entry) (t : Nat)
    (fetch : FetchResult) : Except Unit Bool × List Entry :=
  if ct = ChatTy.privateChat ∨ userId ∈ R.DRAGONS ∨ userId ∈ R.DEV_USERS ∨
      userId = 777000 ∨ userId = 1087968824 then
    (Except.ok true, cache)
  else
    match member with
    | none =>
        match cacheGet cache t chatId with
        | (some admins, c2) => (Except.ok (decide (userId ∈ admins)), c2)
        | (none, c2) =>
            match fetch with
            | FetchResult.ok admins =>
                (Except.ok (decide (userId ∈ admins)), cacheSet c2 t chatId admins)
            | FetchResult.err => (Except.error (), c2)
    | some m =>
        (Except.ok (decide (m.status = MemberStatus.administrator ∨
          m.status = MemberStatus.owner)), cache)

/-- Outcome of the `user_admin` guard. -/
inductive UAOutcome
| invoked
| deletedCmd
| repliedNoAccess
deriving DecidableEq

/-- The `user_admin` decorator: invoke the wrapped handler when
`is_user_admin` says yes; otherwise delete the bare command when `DEL_CMDS`
is set and the message has no space, else reply.  An error raised by
`is_user_admin` propagates. -/
def user_admin (R : Registry) (ct : ChatTy) (chatId userId : Int)
    (cache : List Entry) (t : Nat) (fetch : FetchResult)
    (delCmds msgHasSpace : Bool) : Except Unit UAOutcome × List Entry :=
  match is_user_admin R ct chatId userId none cache t fetch with
  | (Except.ok true, c2) => (Except.ok UAOutcome.invoked, c2)
  | (Except.ok false, c2) =>
      (Except.ok (if delCmds && !msgHasSpace then UAOutcome.deletedCmd
        else UAOutcome.repliedNoAccess), c2)
  | (Except.error e, c2) => (Except.error e, c2)

/-- `is_user_ban_protected(chat, user_id, member)`: private chat, the
`DRAGONS`, `DEV_USERS`, `WOLVES` and `TIGERS` tiers and the two platform
pseudo-users are always protected; otherwise the member record (the
supplied one, or the result `fetched` of a fresh `chat.get_member` call) is
tested for status administrator or owner.  The function never touches
`ADMIN_CACHE`, which is why it takes no cache argument. -/
def is_user_ban_protected (R : Registry) (ct : ChatTy) (userId : Int)
    (member : Option ChatMemberRec) (fetched : ChatMemberRec) : Bool :=
  if ct = ChatTy.privateChat ∨ userId ∈ R.DRAGONS ∨ userId ∈ R.DEV_USERS ∨
      userId ∈ R.WOLVES ∨ userId ∈ R.TIGERS ∨
      userId = 777000 ∨ userId = 1087968824 then
    true
  else
    decide ((member.getD fetched).status = MemberStatus.administrator ∨
      (member.getD fetched).status = MemberStatus.owner)

/-- Modelled from the spec: the allow set of `isBanProtected` exactly as the
specification words it — "true for private chat, developer/sudo tier, and
two named whitelist tiers, else falls back to direct status check
(administrator or owner)".  Written to be compared with the source
function `is_user_ban_protected`. -/
def banProtectedSpec (R : Registry) (ct : ChatTy) (userId : Int)
    (member : Option ChatMemberRec) (fetched : ChatMemberRec) : Bool :=
  if ct = ChatTy.privateChat ∨ userId ∈ R.DRAGONS ∨ userId ∈ R.DEV_USERS ∨
      userId ∈ R.WOLVES ∨ userId ∈ R.TIGERS then
    true
  else
    decide ((member.getD fetched).status = MemberStatus.administrator ∨
      (member.getD fetched).status = MemberStatus.owner)

/-- `is_user_in_chat(chat, user_id)`: fetches the member record and tests
its status against `(LEFT, RESTRICTED)`. -/
def is_user_in_chat (fetched : ChatMemberRec) : Bool :=
  decide (fetched.status = MemberStatus.left ∨
    fetched.status = MemberStatus.restricted)

/-- Outcome of the `can_manage_topics` guard. -/
inductive TopicsOutcome
| invoked
| repliedCantManage
| silent
deriving DecidableEq

/-- The `can_manage_topics` decorator: fetch the bot member record; when it
is a `ChatMemberAdministrator` record, invoke the handler if its
`can_restrict_members` flag is set (the source tests that flag, not
`can_manage_topics`), otherwise reply; when the bot is not an
administrator record at all, fall through without any reply. -/
def can_manage_topics (botMember : ChatMemberRec) : TopicsOutcome :=
  match botMember with
  | ChatMemberRec.administrator caps =>
      if caps.can_restrict_members then TopicsOutcome.invoked
      else TopicsOutcome.repliedCantManage
  | _ => TopicsOutcome.silent

/-! ### The `check_admin` decorator -/

/-- A Python value appearing in the membership test
`user.id in [DRAGONS, DEV_USERS]` of the `only_sudo` branch: either the
integer `user.id` or one of the two id-collection objects themselves. -/
inductive PyVal
| int (n : Int)
| idSet (s : List Int)
deriving DecidableEq

/-- Python `==` between such values: an integer never equals an
id-collection object. -/
def pyEq : PyVal → PyVal → Bool
| PyVal.int a, PyVal.int b => decide (a = b)
| PyVal.idSet a, PyVal.idSet b => decide (a = b)
| _, _ => false

/-- Python `x in l` for a literal list `l`: equality of `x` against each
element of `l` (not membership inside the elements). -/
def pyIn (x : PyVal) (l : List PyVal) : Bool :=
  l.any (fun y => pyEq x y)

/-- The denial replies `check_admin` can send. -/
inductive Reply
| ownerOnly
| devOnly
| sudoOnly
| botNoPerm
| userNoPerm
| botNotAdmin
| userNotAdmin
deriving DecidableEq

/-- How a `check_admin`-wrapped call terminates. -/
inductive CheckResult
| invoked
| replied (r : Reply)
| returnedNone
| attrError
deriving DecidableEq

/-- Full observable outcome of a `check_admin`-wrapped call: every reply
sent (in order), and how the call terminated.  `invoked` means the wrapped
handler ran and its result was returned; `returnedNone` means the wrapped
function fell off its end returning `None` without running the handler;
`attrError` means an `AttributeError` was raised by reading `.status` of a
member variable that is `None`. -/
structure CheckOutput where
  effects : List Reply
  result : CheckResult
deriving DecidableEq

/-- `isinstance(m, ChatMemberOwner)` on a possibly-`None` member variable. -/
def isOwnerInstance : Option ChatMemberRec → Bool
| some ChatMemberRec.owner => true
| _ => false

/-- `getattr(m, permission) if isinstance(m, ChatMemberAdministrator) else
False` on a possibly-`None` member variable. -/
def adminCapFlag : Option ChatMemberRec → Cap → Bool
| some (ChatMemberRec.administrator caps), p => caps.get p
| _, _ => false

/-- The user-side capability test of `check_admin`.  By Python operator
precedence the source expression
`getattr(user_member, permission) if isinstance(user_member,
ChatMemberAdministrator) else False or user.id in DRAGONS`
parses as the conditional expression whose else-branch is
`False or user.id in DRAGONS`: an administrator is tested only on the
capability flag, every other (or missing) record only on `DRAGONS`
membership. -/
def userPermTest (m : Option ChatMemberRec) (p : Cap) (userId : Int)
    (R : Registry) : Bool :=
  match m with
  | some (ChatMemberRec.administrator caps) => caps.get p
  | _ => decide (userId ∈ R.DRAGONS)

/-- The `check_admin(permission, is_bot, is_user, is_both, only_owner,
only_sudo, only_dev)` decorator applied to a handler, evaluated on one
update.  `botFetch` and `userFetch` are what `chat.get_member` would return
for the bot and the user; the member variables are populated from them
exactly under the conditions of the source (`is_bot or is_both` and
`is_user or is_bot` respectively).  The only_dev deny branch sends its
reply without returning, so evaluation continues into the later rules;
every other branch is terminal. -/
def check_admin (R : Registry) (permission : Option Cap)
    (is_bot is_user is_both only_owner only_sudo only_dev : Bool)
    (ct : ChatTy) (userId : Int)
    (botFetch userFetch : ChatMemberRec) : CheckOutput :=
  if ct = ChatTy.privateChat then ⟨[], CheckResult.invoked⟩
  else
    let bot_member : Option ChatMemberRec :=
      if is_bot || is_both then some botFetch else none
    let user_member : Option ChatMemberRec :=
      if is_user || is_bot then some userFetch else none
    if only_owner then
      if isOwnerInstance user_member || decide (userId ∈ R.DEV_USERS) then
        ⟨[], CheckResult.invoked⟩
      else ⟨[Reply.ownerOnly], CheckResult.replied Reply.ownerOnly⟩
    else if only_dev && decide (userId ∈ R.DEV_USERS) then
      ⟨[], CheckResult.invoked⟩
    else
      let fx : List Reply := if only_dev then [Reply.devOnly] else []
      if only_sudo then
        if pyIn (PyVal.int userId) [PyVal.idSet R.DRAGONS, PyVal.idSet R.DEV_USERS] then
          ⟨fx, CheckResult.invoked⟩
        else ⟨fx ++ [Reply.sudoOnly], CheckResult.replied Reply.sudoOnly⟩
      else
        match permission with
        | some perm =>
          if is_bot then
            if adminCapFlag bot_member perm then ⟨fx, CheckResult.invoked⟩
            else ⟨fx ++ [Reply.botNoPerm], CheckResult.replied Reply.botNoPerm⟩
          else if is_user then
            if isOwnerInstance user_member then ⟨fx, CheckResult.invoked⟩
            else if userPermTest user_member perm userId R then
              ⟨fx, CheckResult.invoked⟩
            else ⟨fx ++ [Reply.userNoPerm], CheckResult.replied Reply.userNoPerm⟩
          else if is_both then
            if adminCapFlag bot_member perm then
              if isOwnerInstance user_member || decide (userId ∈ R.DEV_USERS) then
                ⟨fx, CheckResult.invoked⟩
              else if userPermTest user_member perm userId R then
                ⟨fx, CheckResult.invoked⟩
              else ⟨fx ++ [Reply.userNoPerm], CheckResult.replied Reply.userNoPerm⟩
            else ⟨fx ++ [Reply.botNoPerm], CheckResult.replied Reply.botNoPerm⟩
          else ⟨fx, CheckResult.returnedNone⟩
        | none =>
          match bot_member with
          | none => ⟨fx, CheckResult.attrError⟩
          | some bm =>
            if bm.status = MemberStatus.administrator then
              match user_member with
              | none => ⟨fx, CheckResult.attrError⟩
              | some um =>
                if um.status = MemberStatus.administrator ∨
                    um.status = MemberStatus.owner then
                  ⟨fx, CheckResult.returnedNone⟩
                else if userId ∈ R.DRAGONS then ⟨fx, CheckResult.returnedNone⟩
                else ⟨fx ++ [Reply.userNotAdmin],
                  CheckResult.replied Reply.userNotAdmin⟩
            else ⟨fx ++ [Reply.botNotAdmin], CheckResult.replied Reply.botNotAdmin⟩

/-! ### Concrete fixtures used in the evaluated theorems -/

/-- All capability flags set. -/
def fullCaps : AdminCaps := ⟨true, true, true, true, true⟩

/-- An empty role registry. -/
def R0 : Registry := ⟨[], [], [], [], []⟩

/-- A registry with developer 5 and sudo (dragon) 9. -/
def Rex : Registry := ⟨[5], [9], [], [], []⟩

/-- A registry whose developer set is `[5]` and whose sudo set is empty. -/
def Rdev : Registry := ⟨[5], [], [], [], []⟩

/-- A registry with developer 7 and sudo 8. -/
def R4 : Registry := ⟨[7], [8], [], [], []⟩

/-- A full cache: 512 distinct chat entries, all expiring at time 10. -/
def bigCache : List Entry :=
  (List.range ADMIN_CACHE_MAXSIZE).map (fun i => ⟨(i : Int), [], 10⟩)

/-! ### Claims -/

/-- Claim C1 (code bug).  With no capability named, the plain admin check of
`check_admin` never invokes the wrapped action: when the bot is an
administrator and the user is the owner (so the claimed allow condition
holds) the wrapper returns `None` without running the handler; with the
default flags the member variables are not even fetched and reading
`.status` of `None` raises; and on the user side only `DRAGONS` bypasses,
so a developer who is a plain member is denied. -/
theorem c1_plain_admin_check_never_invokes :
    check_admin Rex none true false false false false false ChatTy.group 42
        (ChatMemberRec.administrator fullCaps) ChatMemberRec.owner =
      ⟨[], CheckResult.returnedNone⟩ ∧
    check_admin Rex none false false false false false false ChatTy.group 42
        (ChatMemberRec.administrator fullCaps) ChatMemberRec.owner =
      ⟨[], CheckResult.attrError⟩ ∧
    check_admin Rex none true false false false false false ChatTy.group 5
        (ChatMemberRec.administrator fullCaps) ChatMemberRec.member =
      ⟨[Reply.userNotAdmin], CheckResult.replied Reply.userNotAdmin⟩ := by
  decide

/-- Claim C2 (code bug).  With `only_sudo` set, in a non-private chat every
user — whatever the registry, so in particular every sudo and every
developer user — receives the sudo-only denial and the wrapped action is
never invoked: the source tests `user.id in [DRAGONS, DEV_USERS]`, which
compares the integer id against the two id-collection objects themselves
and is therefore always false. -/
theorem c2_only_sudo_always_denies (R : Registry) (p : Option Cap) (u : Int)
    (ib iu ibo : Bool) (bf uf : ChatMemberRec) :
    check_admin R p ib iu ibo false true false ChatTy.group u bf uf =
      ⟨[Reply.sudoOnly], CheckResult.replied Reply.sudoOnly⟩ := by
  simp [check_admin, pyIn, pyEq]

/-- Claim C3 counterexample.  A developer (user 5, in the developer set and
hence in the sudo-plus tier) who is a plain member invokes a user-side
capability-guarded action and is denied, although the claim says every
sudo-plus user who is not an administrator is allowed. -/
theorem c3_counterexample :
    5 ∈ Rdev.DEV_USERS ∧
    check_admin Rdev (some Cap.can_restrict_members) false true false false
        false false ChatTy.group 5 ChatMemberRec.member ChatMemberRec.member =
      ⟨[Reply.userNoPerm], CheckResult.replied Reply.userNoPerm⟩ := by
  decide

/-- Claim C3 (amended).  For a required capability applying to the user
only, in a non-private chat the wrapped action is invoked exactly when the
user is the chat owner, or an administrator whose record has the capability
flag set, or a non-owner non-administrator in the `DRAGONS` (sudo) set;
membership in the developer set grants nothing here, and an administrator
lacking the flag is denied even when in `DRAGONS`. -/
theorem c3_user_capability_rule (R : Registry) (p : Cap) (u : Int)
    (bf uf : ChatMemberRec) :
    (check_admin R (some p) false true false false false false ChatTy.group
        u bf uf).result = CheckResult.invoked ↔
      (uf = ChatMemberRec.owner ∨
        (∃ caps, uf = ChatMemberRec.administrator caps ∧ caps.get p = true) ∨
        ((∀ caps, uf ≠ ChatMemberRec.administrator caps) ∧
          uf ≠ ChatMemberRec.owner ∧ u ∈ R.DRAGONS)) := by
  cases uf with
  | owner => simp [check_admin, isOwnerInstance]
  | administrator caps =>
      cases h : caps.get p <;>
        simp [check_admin, isOwnerInstance, userPermTest, h]
  | member =>
      simp [check_admin, isOwnerInstance, userPermTest]
      split <;> simp_all
  | restricted =>
      simp [check_admin, isOwnerInstance, userPermTest]
      split <;> simp_all
  | left =>
      simp [check_admin, isOwnerInstance, userPermTest]
      split <;> simp_all
  | banned =>
      simp [check_admin, isOwnerInstance, userPermTest]
      split <;> simp_all

/-- Claim C6 (code bug).  With `only_dev` set, the allow outcome is
terminal (a developer gets the action invoked and nothing else), but the
deny outcome is not: a non-developer receives the dev-only reply and
evaluation then continues into the later rules — with `only_sudo` also set
the sudo-only denial is additionally sent and returned, and with no other
flag the plain admin check is reached and reading `.status` of the
unfetched bot member raises. -/
theorem c6_only_dev_deny_not_terminal :
    check_admin Rex none false false false false false true ChatTy.group 99
        ChatMemberRec.member ChatMemberRec.member =
      ⟨[Reply.devOnly], CheckResult.attrError⟩ ∧
    check_admin Rex none false false false false true true ChatTy.group 99
        ChatMemberRec.member ChatMemberRec.member =
      ⟨[Reply.devOnly, Reply.sudoOnly], CheckResult.replied Reply.sudoOnly⟩ ∧
    check_admin Rex none false false false false false true ChatTy.group 5
        ChatMemberRec.member ChatMemberRec.member =
      ⟨[], CheckResult.invoked⟩ := by
  decide

/-- Claim C9.  `can_manage_topics` invokes the wrapped action exactly when
the bot member record is an administrator record whose
`can_restrict_members` flag is set; the outcome never depends on the
`can_manage_topics` flag of the record; and for every non-administrator
record the guard is silent (no reply, no invocation). -/
theorem c9_manage_topics_guard :
    (∀ bm, can_manage_topics bm = TopicsOutcome.invoked ↔
      ∃ caps, bm = ChatMemberRec.administrator caps ∧
        caps.can_restrict_members = true) ∧
    (∀ caps b,
      can_manage_topics (ChatMemberRec.administrator
        ⟨caps.can_delete_messages, caps.can_pin_messages,
          caps.can_promote_members, caps.can_restrict_members, b⟩) =
      can_manage_topics (ChatMemberRec.administrator caps)) ∧
    can_manage_topics ChatMemberRec.owner = TopicsOutcome.silent ∧
    can_manage_topics ChatMemberRec.member = TopicsOutcome.silent ∧
    can_manage_topics ChatMemberRec.restricted = TopicsOutcome.silent ∧
    can_manage_topics ChatMemberRec.left = TopicsOutcome.silent ∧
    can_manage_topics ChatMemberRec.banned = TopicsOutcome.silent := by
  refine ⟨fun bm => ?_, fun caps b => ?_, rfl, rfl, rfl, rfl, rfl⟩
  · cases bm with
    | administrator caps =>
        cases h : caps.can_restrict_members <;> simp [can_manage_topics, h]
    | owner => simp [can_manage_topics]
    | member => simp [can_manage_topics]
    | restricted => simp [can_manage_topics]
    | left => simp [can_manage_topics]
    | banned => simp [can_manage_topics]
  · cases h : caps.can_restrict_members <;> simp [can_manage_topics, h]

/-- Claim C10.  `is_user_in_chat` is true exactly when the freshly fetched
member status is left or restricted; in particular it is false for present
regular members, administrators and the owner. -/
theorem c10_in_chat_means_left_or_restricted :
    (∀ m, is_user_in_chat m = true ↔
      (m.status = MemberStatus.left ∨ m.status = MemberStatus.restricted)) ∧
    is_user_in_chat ChatMemberRec.member = false ∧
    (∀ caps, is_user_in_chat (ChatMemberRec.administrator caps) = false) ∧
    is_user_in_chat ChatMemberRec.owner = false := by
  refine ⟨fun m => ?_, rfl, fun caps => rfl, rfl⟩
  simp [is_user_in_chat]

/-- Claim C4.  Every user in the developer tier — and likewise the sudo
tier and the two platform pseudo-users — is reported as admin by
`is_user_admin` for every chat, every cache state, every supplied member
record and every upstream fetch behaviour (in particular a failing fetch),
and the cache is returned untouched: no lookup, store or upstream call
happens for these users. -/
theorem c4_privileged_always_admin (R : Registry) (ct : ChatTy)
    (chatId u : Int) (member : Option ChatMemberRec) (cache : List Entry)
    (t : Nat) (fetch : FetchResult)
    (h : u ∈ R.DEV_USERS ∨ u ∈ R.DRAGONS ∨ u = 777000 ∨ u = 1087968824) :
    is_user_admin R ct chatId u member cache t fetch = (Except.ok true, cache) := by
  unfold is_user_admin
  rw [if_pos (by tauto)]

/-- Witness for C4: developer 7 in a group chat with an empty cache and a
failing upstream fetch is still reported as admin. -/
theorem c4_witness :
    ((7 : Int) ∈ R4.DEV_USERS ∨ (7 : Int) ∈ R4.DRAGONS ∨ (7 : Int) = 777000 ∨
      (7 : Int) = 1087968824) ∧
    is_user_admin R4 ChatTy.group 1 7 none [] 0 FetchResult.err =
      (Except.ok true, []) :=
  ⟨by decide,
   c4_privileged_always_admin R4 ChatTy.group 1 7 none [] 0 FetchResult.err
     (by decide)⟩

/-- Claim C5.  The admin snapshot cache, in order of the conjuncts:
(1) a store never grows the cache beyond 512 entries;
(2) storing a 513th distinct chat in a full, unexpired cache evicts exactly
the least recently used entry (the tail of the recency order);
(3) an entry whose 600-second expiry has been reached is a miss on lookup;
(4) a lookup immediately after a store is a hit returning the stored list;
(5) on a miss, `is_user_admin` stores the freshly fetched list under the
chat id with a fresh expiry and answers membership in that list. -/
theorem c5_admin_cache :
    (∀ c t k v, c.length ≤ ADMIN_CACHE_MAXSIZE →
      (cacheSet c t k v).length ≤ ADMIN_CACHE_MAXSIZE) ∧
    (∀ c t k v, c.length = ADMIN_CACHE_MAXSIZE →
      (∀ e ∈ c, t < e.expires) → (∀ e ∈ c, e.key ≠ k) →
      cacheSet c t k v = Entry.mk k v (t + ADMIN_CACHE_TTL) :: c.dropLast) ∧
    (∀ c t k e, c.find? (fun x => x.key == k) = some e → e.expires ≤ t →
      (cacheGet c t k).fst = none) ∧
    (∀ c t k v, (cacheGet (cacheSet c t k v) t k).fst = some v) ∧
    (∀ R ct cid u c t admins,
      ¬(ct = ChatTy.privateChat ∨ u ∈ R.DRAGONS ∨ u ∈ R.DEV_USERS ∨
        u = 777000 ∨ u = 1087968824) →
      (cacheGet c t cid).fst = none →
      is_user_admin R ct cid u none c t (FetchResult.ok admins) =
        (Except.ok (decide (u ∈ admins)),
          cacheSet (cacheGet c t cid).snd t cid admins)) := by
  refine ⟨?_, ?_, ?_, ?_, ?_⟩
  · intro c t k v hc
    have hexp : (expireEntries c t).length ≤ c.length :=
      List.length_filter_le _ _
    unfold cacheSet
    split
    · rename_i hany
      have hlt : ((expireEntries c t).filter
          (fun e => !(e.key == k))).length < (expireEntries c t).length := by
        apply List.length_filter_lt_length_iff_exists.mpr
        rcases List.any_eq_true.mp hany with ⟨x, hx, hxk⟩
        exact ⟨x, hx, by simp_all⟩
      simp only [List.length_cons]
      unfold ADMIN_CACHE_MAXSIZE at *
      omega
    · split
      · rename_i hfull
        simp only [List.length_cons, List.length_take]
        unfold ADMIN_CACHE_MAXSIZE at *
        omega
      · rename_i hnotfull
        simp only [List.length_cons]
        unfold ADMIN_CACHE_MAXSIZE at *
        omega
  · intro c t k v hlen hfresh hnew
    have hexp : expireEntries c t = c :=
      List.filter_eq_self.mpr (fun a ha => by simpa using hfresh a ha)
    have hany : c.any (fun e => e.key == k) = false :=
      List.any_eq_false.mpr (fun x hx => by simpa using hnew x hx)
    unfold cacheSet
    rw [hexp, hany]
    simp only [Bool.false_eq_true, if_false]
    rw [if_pos (by rw [hlen])]
    rw [List.dropLast_eq_take, hlen]
  · intro c t k e hfind he
    unfold cacheGet
    rw [hfind]
    simp [Nat.not_lt.mpr he]
  · intro c t k v
    have hlt : t < t + ADMIN_CACHE_TTL := by unfold ADMIN_CACHE_TTL; omega
    unfold cacheSet cacheGet
    rw [List.find?_cons_of_pos _ (by simp)]
    simp [hlt]
  · intro R ct cid u c t admins hb hm
    rcases hget : cacheGet c t cid with ⟨o, c2⟩
    rw [hget] at hm
    simp only at hm
    subst hm
    unfold is_user_admin
    rw [if_neg hb, hget]

set_option maxRecDepth 40000 in
/-- Witness for C5: a concrete full cache of 512 fresh entries evicts its
least recently used entry when chat 1000 is stored; a concrete expired
entry misses; a store is immediately readable; and a miss with a
successful fetch stores and answers from the fetched list `[50, 60]`. -/
theorem c5_witness :
    bigCache.length = ADMIN_CACHE_MAXSIZE ∧
    (∀ e ∈ bigCache, 5 < e.expires) ∧
    (∀ e ∈ bigCache, e.key ≠ 1000) ∧
    (cacheSet bigCache 5 1000 [7]).length ≤ ADMIN_CACHE_MAXSIZE ∧
    cacheSet bigCache 5 1000 [7] =
      Entry.mk 1000 [7] (5 + ADMIN_CACHE_TTL) :: bigCache.dropLast ∧
    ([Entry.mk 1 [2] 10].find? (fun x => x.key == 1) = some (Entry.mk 1 [2] 10)) ∧
    (cacheGet [Entry.mk 1 [2] 10] 10 1).fst = none ∧
    (cacheGet (cacheSet [] 0 3 [4]) 0 3).fst = some [4] ∧
    ¬(ChatTy.group = ChatTy.privateChat ∨ (50 : Int) ∈ R0.DRAGONS ∨
        (50 : Int) ∈ R0.DEV_USERS ∨ (50 : Int) = 777000 ∨
        (50 : Int) = 1087968824) ∧
    (cacheGet [] 3 2).fst = none ∧
    is_user_admin R0 ChatTy.group 2 50 none [] 3 (FetchResult.ok [50, 60]) =
      (Except.ok (decide ((50 : Int) ∈ ([50, 60] : List Int))),
        cacheSet (cacheGet [] 3 2).snd 3 2 [50, 60]) :=
  ⟨by decide, by decide, by decide,
   c5_admin_cache.1 bigCache 5 1000 [7] (by decide),
   c5_admin_cache.2.1 bigCache 5 1000 [7] (by decide) (by decide) (by decide),
   by decide,
   c5_admin_cache.2.2.1 [Entry.mk 1 [2] 10] 10 1 (Entry.mk 1 [2] 10)
     (by decide) (by decide),
   c5_admin_cache.2.2.2.1 [] 0 3 [4],
   by decide, by decide,
   c5_admin_cache.2.2.2.2 R0 ChatTy.group 2 50 [] 3 [50, 60]
     (by decide) (by decide)⟩

/-- Claim C7 counterexample.  The Telegram service pseudo-user 777000, in a
group chat, outside every tier, with a plain member record, is
ban-protected by the source although the specified allow set (private chat,
developer/sudo tier, two whitelist tiers, else direct status check) says it
is not. -/
theorem c7_counterexample :
    is_user_ban_protected R0 ChatTy.group 777000 (some ChatMemberRec.member)
      ChatMemberRec.member = true ∧
    banProtectedSpec R0 ChatTy.group 777000 (some ChatMemberRec.member)
      ChatMemberRec.member = false := by
  decide

/-- Claim C7 (amended).  `is_user_ban_protected` is true exactly for a
private chat, the `DRAGONS`, `DEV_USERS`, `WOLVES` and `TIGERS` tiers, the
two platform pseudo-users 777000 and 1087968824, or a (supplied or freshly
fetched) member record with status administrator or owner; it takes no
cache argument because the source never touches `ADMIN_CACHE`. -/
theorem c7_ban_protected_characterization (R : Registry) (ct : ChatTy)
    (u : Int) (member : Option ChatMemberRec) (fetched : ChatMemberRec) :
    is_user_ban_protected R ct u member fetched = true ↔
      (ct = ChatTy.privateChat ∨ u ∈ R.DRAGONS ∨ u ∈ R.DEV_USERS ∨
        u ∈ R.WOLVES ∨ u ∈ R.TIGERS ∨ u = 777000 ∨ u = 1087968824 ∨
        (member.getD fetched).status = MemberStatus.administrator ∨
        (member.getD fetched).status = MemberStatus.owner) := by
  unfold is_user_ban_protected
  split
  · rename_i h
    simp only [true_iff]
    tauto
  · rename_i h
    simp only [decide_eq_true_eq]
    tauto

/-- Claim C8.  When the upstream administrator fetch fails during a cache
miss for a user with no tier bypass and no supplied member record, the
error propagates out of `is_user_admin`, the cache is left exactly as it
was (no negative result is stored), and the `user_admin` guard propagates
the error without invoking the wrapped action. -/
theorem c8_fetch_failure_fails_closed (R : Registry) (ct : ChatTy)
    (chatId u : Int) (cache : List Entry) (t : Nat) (delCmds msgHasSpace : Bool)
    (hb : ¬(ct = ChatTy.privateChat ∨ u ∈ R.DRAGONS ∨ u ∈ R.DEV_USERS ∨
      u = 777000 ∨ u = 1087968824))
    (hm : cache.find? (fun e => e.key == chatId) = none) :
    is_user_admin R ct chatId u none cache t FetchResult.err =
      (Except.error (), cache) ∧
    user_admin R ct chatId u cache t FetchResult.err delCmds msgHasSpace =
      (Except.error (), cache) := by
  have hget : cacheGet cache t chatId = (none, cache) := by
    unfold cacheGet
    rw [hm]
  have h1 : is_user_admin R ct chatId u none cache t FetchResult.err =
      (Except.error (), cache) := by
    unfold is_user_admin
    rw [if_neg hb, hget]
  exact ⟨h1, by unfold user_admin; rw [h1]⟩

/-- Witness for C8: user 50 (no tier, not a pseudo-user) in a group chat
with an empty cache and a failing fetch: the error propagates through both
`is_user_admin` and the `user_admin` guard and the cache stays empty. -/
theorem c8_witness :
    ¬(ChatTy.group = ChatTy.privateChat ∨ (50 : Int) ∈ R0.DRAGONS ∨
        (50 : Int) ∈ R0.DEV_USERS ∨ (50 : Int) = 777000 ∨
        (50 : Int) = 1087968824) ∧
    ([] : List Entry).find? (fun e => e.key == 9) = none ∧
    is_user_admin R0 ChatTy.group 9 50 none [] 0 FetchResult.err =
      (Except.error (), []) ∧
    user_admin R0 ChatTy.group 9 50 [] 0 FetchResult.err true true =
      (Except.error (), []) :=
  ⟨by decide, by decide,
   (c8_fetch_failure_fails_closed R0 ChatTy.group 9 50 [] 0 true true
     (by decide) (by decide)).1,
   (c8_fetch_failure_fails_closed R0 ChatTy.group 9 50 [] 0 true true
     (by decide) (by decide)).2⟩

end ZeroTwoBot
